import Mathlib

/-!
Shallow embedding of `ethercat_sdk_master`:
`include/ethercat_sdk_master/EthercatMasterSingleton.hpp` together with the
parts of `include/ethercat_sdk_master/EthercatMaster.hpp` it uses.

The registry (`EthercatMasterSingleton`) is modelled as an explicit state
(`RegistryState`) threaded through the operations `aquireMaster`,
`markAsReady`, `releaseMaster`, `forceShutdownMaster` and `shutdownMaster`.
Calls into the external bus driver (`startup`, `preShutdown`, `shutdown`,
`update`, thread spawn/join, …) are recorded as events in an event trace so
that ordering and occurrence properties can be stated.  C++ exceptions
(`std::logic_error`, `std::runtime_error`) are modelled as `Except.error`
values; since a C++ throw leaves already-performed mutations in place, every
operation also returns the state as it stands when the exception propagates.
`shared_ptr` identity of `std::make_shared<EthercatMaster>()` allocations is
modelled by a fresh `masterId` drawn from an allocation counter.

Dereferencing the null `spin_thread` unique_ptr (`spin_thread->join()` when no
thread was ever spawned) is undefined behaviour in the C++ source; the model
makes it an explicit `RegError.nullThreadJoin` error.
-/

namespace EcatMaster

/-- Association-list lookup, modelling `std::map::find` / `std::map::at`. -/
def mapFind {α β : Type} [DecidableEq α] : List (α × β) → α → Option β
  | [], _ => none
  | (k, v) :: rest, key => if k = key then some v else mapFind rest key

/-- Insert a key/value pair only when the key is absent, modelling
`std::map::emplace` (which does not overwrite an existing mapping). -/
def mapEmplace {α β : Type} [DecidableEq α] (m : List (α × β)) (key : α) (v : β) :
    List (α × β) :=
  match mapFind m key with
  | some _ => m
  | none => m ++ [(key, v)]

/-- Overwrite the value stored at an existing key, modelling assignment
through `std::map::at`; absent keys are left untouched. -/
def mapSet {α β : Type} [DecidableEq α] : List (α × β) → α → β → List (α × β)
  | [], _, _ => []
  | (k, v) :: rest, key, nv =>
    if k = key then (k, nv) :: rest else (k, v) :: mapSet rest key nv

/-- Remove a key, modelling `std::map::erase`. -/
def mapErase {α β : Type} [DecidableEq α] : List (α × β) → α → List (α × β)
  | [], _ => []
  | (k, v) :: rest, key =>
    if k = key then mapErase rest key else (k, v) :: mapErase rest key

/-- `EthercatMasterConfiguration`: the `networkInterface` sharing key plus the
driver-specific settings, which the registry only ever compares for
equality (modelled as an opaque `Nat`). -/
structure EthercatMasterConfiguration where
  networkInterface : String
  driverSettings : Nat
  deriving DecidableEq, Repr

/-- One `EthercatMaster` instance.  `masterId` models the `shared_ptr`
identity of a `std::make_shared<EthercatMaster>()` allocation;
`configuration_` is the configuration stored by
`loadEthercatMasterConfiguration`. -/
structure EthercatMaster where
  masterId : Nat
  configuration_ : EthercatMasterConfiguration
  deriving DecidableEq, Repr

/-- `EthercatMaster::getConfiguration`. -/
def EthercatMaster.getConfiguration (m : EthercatMaster) : EthercatMasterConfiguration :=
  m.configuration_

/-- `EthercatMasterSingleton::InternalHandle`.  `spin_thread = false` models
the null `unique_ptr<std::thread>`; `true` models a spawned thread. -/
structure InternalHandle where
  ecat_master : EthercatMaster
  spin_thread : Bool
  abort_signal : Bool
  reference_count : Int
  handles_ready : List (Int × Bool)
  rt_prio : Int
  deriving DecidableEq, Repr

/-- `EthercatMasterSingleton::Handle`, the public handle returned by
`aquireMaster`. -/
structure Handle where
  id : Int
  ecat_master : EthercatMaster
  deriving DecidableEq, Repr

/-- The state of the `EthercatMasterSingleton`: the `handles_` table plus the
allocation counter that models `make_shared` identity. -/
structure RegistryState where
  handles_ : List (String × InternalHandle)
  nextMasterId : Nat
  deriving DecidableEq, Repr

/-- Observable calls into the external collaborators, recorded as a trace. -/
inductive Event where
  | loadConfiguration (masterId : Nat)
  | warnConfigMismatch (ni : String)
  | masterStartup (masterId : Nat) (ok : Bool)
  | spawnSpinThread (ni : String)
  | setAbortSignal (ni : String)
  | joinSpinThread (ni : String)
  | masterPreShutdown (masterId : Nat) (set_to_safe_op : Bool)
  | masterShutdown (masterId : Nat)
  | eraseEntry (ni : String)
  deriving DecidableEq, Repr

/-- The C++ exceptions thrown by the registry, plus `nullThreadJoin` for the
undefined behaviour of joining through a null `unique_ptr<std::thread>`, and
`terminateJoinableThread` for the `std::terminate()` raised when assigning a
new thread into `spin_thread` destroys a previously held, still-joinable
`std::thread`. -/
inductive RegError where
  | notManaged (ni : String)
  | alreadyReady (id : Int) (ni : String)
  | mapAtOutOfRange (id : Int)
  | startupFailure (ni : String)
  | nullThreadJoin (ni : String)
  | terminateJoinableThread (ni : String)
  deriving DecidableEq, Repr

instance {ε α : Type} [DecidableEq ε] [DecidableEq α] :
    DecidableEq (Except ε α) := fun x y =>
  match x, y with
  | Except.ok a, Except.ok b =>
    if h : a = b then isTrue (by rw [h])
    else isFalse (by intro hc; injection hc; contradiction)
  | Except.ok _, Except.error _ => isFalse (by intro hc; exact Except.noConfusion hc)
  | Except.error _, Except.ok _ => isFalse (by intro hc; exact Except.noConfusion hc)
  | Except.error e, Except.error f =>
    if h : e = f then isTrue (by rw [h])
    else isFalse (by intro hc; injection hc; contradiction)

/-- The entry-creation step of `aquireMaster` (source lines 52-60): when no
master runs on the interface, construct a fresh `EthercatMaster`, load the
configuration into it and emplace a new `InternalHandle` (null thread,
reference count 0, empty readiness map).  Returns the entry now present for
the interface, the updated state and the trace. -/
def ensureEntry (config : EthercatMasterConfiguration) (rt_prio : Int)
    (s : RegistryState) : InternalHandle × RegistryState × List Event :=
  match mapFind s.handles_ config.networkInterface with
  | some e => (e, s, [])
  | none =>
    let master : EthercatMaster :=
      { masterId := s.nextMasterId, configuration_ := config }
    let fresh : InternalHandle :=
      { ecat_master := master, spin_thread := false, abort_signal := false,
        reference_count := 0, handles_ready := [], rt_prio := rt_prio }
    (fresh,
     { handles_ := s.handles_ ++ [(config.networkInterface, fresh)],
       nextMasterId := s.nextMasterId + 1 },
     [Event.loadConfiguration s.nextMasterId])

/-- `EthercatMasterSingleton::aquireMaster` (source lines 46-74): ensure an
entry exists, increment its reference count, `emplace` the new count into
`handles_ready` with value `false`, warn when the configuration differs from
the stored master's, and return a `Handle` whose id is the new count. -/
def aquireMaster (config : EthercatMasterConfiguration) (rt_prio : Int)
    (s : RegistryState) : Handle × RegistryState × List Event :=
  let ni := config.networkInterface
  let r0 := ensureEntry config rt_prio s
  let e := r0.1
  let s1 := r0.2.1
  let ev0 := r0.2.2
  let new_count := e.reference_count + 1
  let e1 : InternalHandle :=
    { e with reference_count := new_count,
             handles_ready := mapEmplace e.handles_ready new_count false }
  let warn :=
    if config = e.ecat_master.getConfiguration then []
    else [Event.warnConfigMismatch ni]
  ({ id := new_count, ecat_master := e.ecat_master },
   { s1 with handles_ := mapSet s1.handles_ ni e1 },
   ev0 ++ warn)

/-- `EthercatMasterSingleton::hasMaster` (string overload, source
lines 137-140). -/
def hasMaster (s : RegistryState) (networkInterface : String) : Bool :=
  (mapFind s.handles_ networkInterface).isSome

/-- `EthercatMasterSingleton::markAsReady` (source lines 79-128).
`startupResult` is the boolean the external `EthercatMaster::startup()` call
would return.  Throws `notManaged` when the interface is not tracked,
`mapAtOutOfRange` when `handles_ready.at(id)` has no such key, and
`alreadyReady` when the flag is already true; otherwise sets the flag, and
when every recorded flag is true performs the startup (throwing
`startupFailure` when it fails) and spawns the spin thread.  The spawn
assigns a freshly constructed `std::thread` into `spin_thread`; when a
thread had already been spawned for this entry the assignment destroys that
still-joinable `std::thread`, whose destructor calls `std::terminate()` —
modelled as the `terminateJoinableThread` error (the second startup call and
the construction of the new thread have happened by then). -/
def markAsReady (handle : Handle) (startupResult : Bool) (s : RegistryState) :
    Except RegError Bool × RegistryState × List Event :=
  let ni := handle.ecat_master.getConfiguration.networkInterface
  match mapFind s.handles_ ni with
  | none => (Except.error (RegError.notManaged ni), s, [])
  | some e =>
    match mapFind e.handles_ready handle.id with
    | none => (Except.error (RegError.mapAtOutOfRange handle.id), s, [])
    | some true => (Except.error (RegError.alreadyReady handle.id ni), s, [])
    | some false =>
      let e1 : InternalHandle :=
        { e with handles_ready := mapSet e.handles_ready handle.id true }
      let s1 : RegistryState := { s with handles_ := mapSet s.handles_ ni e1 }
      let all_ready := e1.handles_ready.all (fun kv => kv.2)
      if all_ready then
        if startupResult then
          if e.spin_thread then
            (Except.error (RegError.terminateJoinableThread ni),
             { s1 with handles_ := mapSet s1.handles_ ni { e1 with spin_thread := true } },
             [Event.masterStartup e.ecat_master.masterId true, Event.spawnSpinThread ni])
          else
            (Except.ok true,
             { s1 with handles_ := mapSet s1.handles_ ni { e1 with spin_thread := true } },
             [Event.masterStartup e.ecat_master.masterId true, Event.spawnSpinThread ni])
        else
          (Except.error (RegError.startupFailure ni), s1,
           [Event.masterStartup e.ecat_master.masterId false])
      else
        (Except.ok false, s1, [])

/-- `EthercatMasterSingleton::shutdownMaster` (source lines 187-208): resolve
the interface from the passed master's configuration, throw `notManaged` when
untracked, set the abort signal, join the spin thread (undefined behaviour —
modelled as `nullThreadJoin` — when no thread was ever spawned), call
`preShutdown(set_to_safe_op)` then `shutdown()` on the entry's master, and
erase the entry. -/
def shutdownMaster (master : EthercatMaster) (set_to_safe_op : Bool)
    (s : RegistryState) : Except RegError Unit × RegistryState × List Event :=
  let ni := master.getConfiguration.networkInterface
  match mapFind s.handles_ ni with
  | none => (Except.error (RegError.notManaged ni), s, [])
  | some e =>
    let e1 : InternalHandle := { e with abort_signal := true }
    let s1 : RegistryState := { s with handles_ := mapSet s.handles_ ni e1 }
    if e1.spin_thread then
      let mid := e1.ecat_master.masterId
      (Except.ok (),
       { s1 with handles_ := mapErase s1.handles_ ni },
       [Event.setAbortSignal ni, Event.joinSpinThread ni,
        Event.masterPreShutdown mid set_to_safe_op, Event.masterShutdown mid,
        Event.eraseEntry ni])
    else
      (Except.error (RegError.nullThreadJoin ni), s1, [Event.setAbortSignal ni])

/-- `EthercatMasterSingleton::releaseMaster` (source lines 146-171): throw
`notManaged` when the interface of the handle's master is untracked,
decrement the reference count, and when the new count is ≤ 0 run
`shutdownMaster` (with the default `set_to_safe_op = true`) and return true;
otherwise return false. -/
def releaseMaster (handle : Handle) (s : RegistryState) :
    Except RegError Bool × RegistryState × List Event :=
  let ni := handle.ecat_master.getConfiguration.networkInterface
  match mapFind s.handles_ ni with
  | none => (Except.error (RegError.notManaged ni), s, [])
  | some e =>
    let e1 : InternalHandle := { e with reference_count := e.reference_count - 1 }
    let s1 : RegistryState := { s with handles_ := mapSet s.handles_ ni e1 }
    if e1.reference_count ≤ 0 then
      let r := shutdownMaster handle.ecat_master true s1
      (match r.1 with
       | Except.ok _ => Except.ok true
       | Except.error err => Except.error err,
       r.2.1, r.2.2)
    else
      (Except.ok false, s1, [])

/-- `EthercatMasterSingleton::forceShutdownMaster` (source lines 177-184):
shut the master down without touching the reference count. -/
def forceShutdownMaster (master : EthercatMaster) (s : RegistryState) :
    Except RegError Unit × RegistryState × List Event :=
  shutdownMaster master true s

/-- `~EthercatMasterSingleton` (source lines 211-228): set every entry's
abort signal (first loop), join every spin thread (second loop), then, in
the third loop, call `preShutdown()` and `shutdown()` on each entry's master
in turn — the two calls interleave per entry.  The final erase events model
the destruction of the `handles_` member that follows the destructor body.
Joining stops at the first entry without a spawned thread (null `unique_ptr`
dereference, undefined behaviour). -/
def destructorRun (s : RegistryState) : Except RegError Unit × List Event :=
  let aborts := s.handles_.map (fun kv => Event.setAbortSignal kv.1)
  if s.handles_.all (fun kv => kv.2.spin_thread) then
    (Except.ok (),
     aborts
       ++ s.handles_.map (fun kv => Event.joinSpinThread kv.1)
       ++ s.handles_.flatMap (fun kv =>
            [Event.masterPreShutdown kv.2.ecat_master.masterId true,
             Event.masterShutdown kv.2.ecat_master.masterId])
       ++ s.handles_.map (fun kv => Event.eraseEntry kv.1))
  else
    (Except.error (RegError.nullThreadJoin ""),
     aborts
       ++ (s.handles_.takeWhile (fun kv => kv.2.spin_thread)).map
            (fun kv => Event.joinSpinThread kv.1))

/-- Observable steps of the spin thread (`EthercatMasterSingleton::spin`,
source lines 229-247). -/
inductive SpinEvent where
  | setRtPrio (prio : Int)
  | activate
  | readAbort (observed : Bool)
  | update
  | deactivate
  deriving DecidableEq, Repr

/-- The `while (!abort_flag) master->update(...)` loop of `spin`, driven by
the successive values the loop reads from the atomic abort flag: each
iteration records the read; a false read is followed by one `update`, a true
read exits the loop and `deactivate` runs.  An observation list that never
reads true models a loop still running. -/
def spinLoopTrace : List Bool → List SpinEvent
  | [] => []
  | b :: rest =>
    SpinEvent.readAbort b ::
      (if b then [SpinEvent.deactivate]
       else SpinEvent.update :: spinLoopTrace rest)

/-- `EthercatMasterSingleton::spin`: set the real-time priority, activate the
bus, then run the polling loop. -/
def spinTrace (rt_prio : Int) (obs : List Bool) : List SpinEvent :=
  SpinEvent.setRtPrio rt_prio :: SpinEvent.activate :: spinLoopTrace obs

/-- Sequential acquisitions: run `aquireMaster` over a list of
configurations, collecting the returned handles. -/
def aquireAll (cfgs : List EthercatMasterConfiguration) (rt_prio : Int)
    (s : RegistryState) : List Handle × RegistryState :=
  match cfgs with
  | [] => ([], s)
  | c :: rest =>
    let r := aquireMaster c rt_prio s
    let r2 := aquireAll rest rt_prio r.2.1
    (r.1 :: r2.1, r2.2)

/-- The readiness flag the registry records for `id` on interface `ni`
(`none` when the interface or the id is not tracked). -/
def readinessFlagAt (s : RegistryState) (ni : String) (id : Int) : Option Bool :=
  match mapFind s.handles_ ni with
  | none => none
  | some e => mapFind e.handles_ready id

/-- The reference count currently recorded for interface `ni` (0 when the
interface is not tracked, matching a freshly created entry). -/
def refCountAt (s : RegistryState) (ni : String) : Int :=
  match mapFind s.handles_ ni with
  | none => 0
  | some e => e.reference_count

end EcatMaster

namespace EcatMaster

/-- The readiness map recorded for interface `ni` (empty when untracked). -/
def readinessAt (s : RegistryState) (ni : String) : List (Int × Bool) :=
  match mapFind s.handles_ ni with
  | none => []
  | some e => e.handles_ready

/-- Whether a spin thread has been spawned for interface `ni`. -/
def spinThreadAt (s : RegistryState) (ni : String) : Bool :=
  match mapFind s.handles_ ni with
  | none => false
  | some e => e.spin_thread

/-- The entry after the bookkeeping steps of `aquireMaster` (count increment
and readiness emplace). -/
def acquiredEntry (e : InternalHandle) : InternalHandle :=
  { e with reference_count := e.reference_count + 1,
           handles_ready := mapEmplace e.handles_ready (e.reference_count + 1) false }

/-- The entry as releaseMaster leaves it when the new count stays positive. -/
def releasedEntry (e : InternalHandle) : InternalHandle :=
  { e with reference_count := e.reference_count - 1 }

/-- A concrete configuration used by the scenario runs. -/
def cfg0 : EthercatMasterConfiguration :=
  { networkInterface := "eth0", driverSettings := 0 }

/-- The registry before any acquisition. -/
def emptyReg : RegistryState :=
  { handles_ := [], nextMasterId := 0 }

/-- Scenario: first acquisition on interface eth0 (handle id 1). -/
def acq1 : Handle × RegistryState × List Event :=
  aquireMaster cfg0 48 emptyReg

/-- Scenario: second acquisition on interface eth0 (handle id 2). -/
def acq2 : Handle × RegistryState × List Event :=
  aquireMaster cfg0 48 acq1.2.1

/-- Scenario: the first consumer marks ready (barrier not yet complete). -/
def mark1 : Except RegError Bool × RegistryState × List Event :=
  markAsReady acq1.1 true acq2.2.1

/-- Scenario: the second consumer marks ready, completing the barrier. -/
def mark2 : Except RegError Bool × RegistryState × List Event :=
  markAsReady acq2.1 true mark1.2.1

/-- Scenario: the two-consumer activated registry (count 2, spin thread
spawned). -/
def activated2 : RegistryState :=
  mark2.2.1

/-- Scenario: only the second consumer marks ready (readiness 1 ↦ false,
2 ↦ true). -/
def markSecondOnly : Except RegError Bool × RegistryState × List Event :=
  markAsReady acq2.1 true acq2.2.1

/-- Scenario: the first consumer then releases; the count drops to 1 and the
entry is retained. -/
def releaseFirstAfterMarkSecond : Except RegError Bool × RegistryState × List Event :=
  releaseMaster acq1.1 markSecondOnly.2.1

/-- Scenario: a third acquisition after that release; the reference count
returns to 2. -/
def reacquire : Handle × RegistryState × List Event :=
  aquireMaster cfg0 48 releaseFirstAfterMarkSecond.2.1

/-- Scenario: the second consumer releases its handle before anyone marked
ready; the count drops to 1. -/
def releaseSecondUnmarked : Except RegError Bool × RegistryState × List Event :=
  releaseMaster acq2.1 acq2.2.1

/-- Scenario: the only remaining consumer then marks ready. -/
def markFirstAfterRelease : Except RegError Bool × RegistryState × List Event :=
  markAsReady acq1.1 true releaseSecondUnmarked.2.1

/-- Scenario: a single consumer acquires and immediately marks ready,
activating the master on its own. -/
def soloMark : Except RegError Bool × RegistryState × List Event :=
  markAsReady acq1.1 true acq1.2.1

/-- Scenario: a second consumer acquires after the solo activation. -/
def lateAcquire : Handle × RegistryState × List Event :=
  aquireMaster cfg0 48 soloMark.2.1

/-- Scenario: the late consumer marks ready, completing the readiness set a
second time. -/
def lateMark : Except RegError Bool × RegistryState × List Event :=
  markAsReady lateAcquire.1 true lateAcquire.2.1

/-- Scenario: the sole consumer releases without ever marking ready. -/
def releaseUnmarked : Except RegError Bool × RegistryState × List Event :=
  releaseMaster acq1.1 acq1.2.1

/-- Scenario: the first consumer releases once in the activated registry. -/
def releaseOnceActivated : Except RegError Bool × RegistryState × List Event :=
  releaseMaster acq1.1 activated2

/-- Scenario: the first consumer releases the SAME handle a second time
while the second consumer still holds its handle. -/
def releaseTwiceActivated : Except RegError Bool × RegistryState × List Event :=
  releaseMaster acq1.1 releaseOnceActivated.2.1

/-- Replace the reference count recorded for `ni` (scenario helper used to
show the count is not consulted). -/
def withRefCount (s : RegistryState) (ni : String) (c : Int) : RegistryState :=
  match mapFind s.handles_ ni with
  | none => s
  | some e => { s with handles_ := mapSet s.handles_ ni { e with reference_count := c } }

/-- Scenario: forced shutdown of the activated two-consumer registry. -/
def forcedShutdown : Except RegError Unit × RegistryState × List Event :=
  forceShutdownMaster acq1.1.ecat_master activated2

/-- A second concrete configuration, on interface eth1. -/
def cfg1 : EthercatMasterConfiguration :=
  { networkInterface := "eth1", driverSettings := 0 }

/-- Scenario: a consumer acquires eth1 while the activated eth0 registry is
running. -/
def acqB : Handle × RegistryState × List Event :=
  aquireMaster cfg1 48 activated2

/-- Scenario: the eth1 consumer marks ready, activating the second bus. -/
def markB : Except RegError Bool × RegistryState × List Event :=
  markAsReady acqB.1 true acqB.2.1

/-- Scenario: the registry with both eth0 and eth1 activated (two entries,
both with spawned threads). -/
def twoBuses : RegistryState :=
  markB.2.1

/-- The entry with its abort signal raised (teardown step 1). -/
def abortedEntry (e : InternalHandle) : InternalHandle :=
  { e with abort_signal := true }

/-- The state after a successful `shutdownMaster` on interface `ni` whose
entry was `e`: the abort signal is set and then the entry is erased. -/
def stateAfterShutdown (s : RegistryState) (ni : String) (e : InternalHandle) :
    RegistryState :=
  { s with handles_ := mapErase (mapSet s.handles_ ni (abortedEntry e)) ni }

/-- The event trace of a successful `shutdownMaster`: abort, join,
preShutdown, shutdown, erase — in this order. -/
def shutdownEvents (ni : String) (mid : Nat) (safe : Bool) : List Event :=
  [Event.setAbortSignal ni, Event.joinSpinThread ni,
   Event.masterPreShutdown mid safe, Event.masterShutdown mid,
   Event.eraseEntry ni]

theorem mapFind_append_none {α β : Type} [DecidableEq α] (l₁ l₂ : List (α × β))
    (k : α) (h : mapFind l₁ k = none) : mapFind (l₁ ++ l₂) k = mapFind l₂ k := by
  induction l₁ with
  | nil => rfl
  | cons kv rest ih =>
    simp only [mapFind, List.cons_append] at h ⊢
    by_cases hk : kv.1 = k
    · simp [hk] at h
    · simp only [hk, if_false] at h ⊢
      exact ih h

theorem mapFind_mapSet_eq {α β : Type} [DecidableEq α] (l : List (α × β))
    (k : α) (v : β) : mapFind (mapSet l k v) k = (mapFind l k).map (fun _ => v) := by
  induction l with
  | nil => rfl
  | cons kv rest ih =>
    by_cases hk : kv.1 = k
    · simp [mapSet, mapFind, hk]
    · simp [mapSet, mapFind, hk, ih]

theorem mapFind_mapSet_ne {α β : Type} [DecidableEq α] (l : List (α × β))
    (k k' : α) (v : β) (h : k' ≠ k) :
    mapFind (mapSet l k v) k' = mapFind l k' := by
  induction l with
  | nil => rfl
  | cons kv rest ih =>
    by_cases hk : kv.1 = k
    · have hne : kv.1 ≠ k' := by
        rw [hk]
        exact fun hc => h hc.symm
      simp [mapSet, mapFind, hk, hne, h.symm]
    · by_cases hk' : kv.1 = k'
      · simp [mapSet, mapFind, hk, hk', h]
      · simp [mapSet, mapFind, hk, hk', ih]

theorem mapSet_append_absent {α β : Type} [DecidableEq α] (l : List (α × β))
    (k : α) (v nv : β) (h : mapFind l k = none) :
    mapSet (l ++ [(k, v)]) k nv = l ++ [(k, nv)] := by
  induction l with
  | nil => simp [mapSet]
  | cons kv rest ih =>
    simp only [mapFind] at h
    by_cases hk : kv.1 = k
    · simp [hk] at h
    · simp only [hk, if_false] at h
      simp [mapSet, hk, ih h]

theorem mapFind_mem {α β : Type} [DecidableEq α] (l : List (α × β)) (k : α)
    (v : β) (h : mapFind l k = some v) : (k, v) ∈ l := by
  induction l with
  | nil => simp [mapFind] at h
  | cons kv rest ih =>
    cases kv with
    | mk a b =>
      simp only [mapFind] at h
      by_cases hk : a = k
      · rw [if_pos hk] at h
        injection h with hv
        subst hk
        subst hv
        exact List.mem_cons_self _ _
      · rw [if_neg hk] at h
        exact List.mem_cons_of_mem _ (ih h)

theorem all_false_of_mapFind_false {β : Type} (l : List (Int × β))
    (p : Int × β → Bool) (k : Int) (v : β) (h : mapFind l k = some v)
    (hp : p (k, v) = false) : l.all p = false := by
  have hm := mapFind_mem l k v h
  cases hb : l.all p with
  | false => rfl
  | true =>
    rw [List.all_eq_true] at hb
    have hpv := hb _ hm
    rw [hp] at hpv
    exact absurd hpv Bool.false_ne_true

/-- No `update` step of the polling loop comes after the loop has observed
the abort flag true. -/
theorem spinLoopTrace_no_update_after (obs : List Bool) (i j : Nat)
    (hobs : (spinLoopTrace obs).get? i = some (SpinEvent.readAbort true))
    (hij : i < j) : (spinLoopTrace obs).get? j ≠ some SpinEvent.update := by
  induction obs generalizing i j with
  | nil => simp [spinLoopTrace] at hobs
  | cons b rest ih =>
    cases b with
    | true =>
      cases i with
      | zero =>
        cases j with
        | zero => omega
        | succ j' =>
          cases j' with
          | zero => simp [spinLoopTrace]
          | succ j'' => simp [spinLoopTrace]
      | succ i' =>
        cases i' with
        | zero => simp [spinLoopTrace] at hobs
        | succ i'' => simp [spinLoopTrace] at hobs
    | false =>
      cases i with
      | zero => simp [spinLoopTrace] at hobs
      | succ i' =>
        cases i' with
        | zero => simp [spinLoopTrace] at hobs
        | succ i'' =>
          simp only [spinLoopTrace, if_neg Bool.false_ne_true, List.get?] at hobs ⊢
          cases j with
          | zero => omega
          | succ j' =>
            cases j' with
            | zero => omega
            | succ j'' =>
              simp only [List.get?] at hobs ⊢
              exact ih i'' j'' hobs (by omega)

end EcatMaster

namespace EcatMaster

/-- `aquireMaster` on an interface that already has an entry `e`: increment
the count, emplace the new count into the readiness map, warn on a
configuration mismatch, and hand out `e`'s master with the new count as id. -/
theorem aquireMaster_existing (config : EthercatMasterConfiguration)
    (rt_prio : Int) (s : RegistryState) (e : InternalHandle)
    (he : mapFind s.handles_ config.networkInterface = some e) :
    aquireMaster config rt_prio s =
      ({ id := e.reference_count + 1, ecat_master := e.ecat_master },
       { s with handles_ :=
          mapSet s.handles_ config.networkInterface (acquiredEntry e) },
       if config = e.ecat_master.getConfiguration then []
       else [Event.warnConfigMismatch config.networkInterface]) := by
  simp only [aquireMaster, ensureEntry, he, acquiredEntry]
  split
  · simp
  · simp

/-- `aquireMaster` on an untracked interface: construct a master holding the
configuration, create the entry, and return handle id 1. -/
theorem aquireMaster_fresh (config : EthercatMasterConfiguration)
    (rt_prio : Int) (s : RegistryState)
    (he : mapFind s.handles_ config.networkInterface = none) :
    aquireMaster config rt_prio s =
      ({ id := 1,
         ecat_master := { masterId := s.nextMasterId, configuration_ := config } },
       { handles_ := s.handles_ ++ [(config.networkInterface,
           { ecat_master := { masterId := s.nextMasterId, configuration_ := config },
             spin_thread := false, abort_signal := false, reference_count := 1,
             handles_ready := [(1, false)], rt_prio := rt_prio })],
         nextMasterId := s.nextMasterId + 1 },
       [Event.loadConfiguration s.nextMasterId]) := by
  simp only [aquireMaster, ensureEntry, he]
  simp [mapEmplace, mapFind, EthercatMaster.getConfiguration,
        mapSet_append_absent _ _ _ _ he]

/-- Running a block of acquisitions for interface `ni` over a state that
already tracks `ni` with entry `e`: every handle shares `e`'s master, the
handle ids count up from `e`'s reference count, and afterwards the entry
still holds `e`'s master with the count advanced by the number of calls. -/
theorem aquireAll_existing (cfgs : List EthercatMasterConfiguration)
    (ni : String) (rt_prio : Int)
    (hall : ∀ c ∈ cfgs, c.networkInterface = ni) :
    ∀ (s : RegistryState) (e : InternalHandle),
      mapFind s.handles_ ni = some e →
      ((aquireAll cfgs rt_prio s).1.map Handle.ecat_master =
        List.replicate cfgs.length e.ecat_master) ∧
      ((aquireAll cfgs rt_prio s).1.map Handle.id =
        (List.range cfgs.length).map
          (fun (i : Nat) => e.reference_count + 1 + (i : Int))) ∧
      ∃ e2, mapFind (aquireAll cfgs rt_prio s).2.handles_ ni = some e2 ∧
        e2.ecat_master = e.ecat_master ∧
        e2.reference_count = e.reference_count + (cfgs.length : Int) := by
  induction cfgs with
  | nil =>
    intro s e he
    refine ⟨by simp [aquireAll], by simp [aquireAll], e, ?_⟩
    simp [aquireAll, he]
  | cons c rest ih =>
    intro s e he
    have hc : c.networkInterface = ni := hall c (List.mem_cons_self c rest)
    have hcr : ∀ x ∈ rest, x.networkInterface = ni :=
      fun x hx => hall x (List.mem_cons_of_mem _ hx)
    have he' : mapFind s.handles_ c.networkInterface = some e := by rw [hc]; exact he
    have hstep := aquireMaster_existing c rt_prio s e he'
    have hfind1 :
        mapFind (aquireMaster c rt_prio s).2.1.handles_ ni =
          some (acquiredEntry e) := by
      rw [hstep]
      simp [hc, mapFind_mapSet_eq, he]
    obtain ⟨hm, hi, e2, hfind2, hmaster2, hcount2⟩ :=
      ih hcr (aquireMaster c rt_prio s).2.1 _ hfind1
    refine ⟨?_, ?_, e2, ?_, ?_, ?_⟩
    · simp only [aquireAll, List.map_cons, hm, List.length_cons, List.replicate_succ,
                 acquiredEntry]
      rw [hstep]
    · simp only [aquireAll, List.map_cons, hi, List.length_cons, acquiredEntry]
      rw [hstep]
      simp only [List.range_succ_eq_map, List.map_cons, List.map_map]
      congr 1
      · simp
      · apply List.map_congr_left
        intro a _
        simp only [Function.comp_apply]
        push_cast
        ring
    · simpa [aquireAll] using hfind2
    · simpa [acquiredEntry] using hmaster2
    · rw [hcount2]
      simp only [List.length_cons, acquiredEntry]
      push_cast
      ring

end EcatMaster

namespace EcatMaster

theorem sublist_flatMap_of_mem {α β : Type} (f : α → List β)
    (l : List α) (a : α) (h : a ∈ l) :
    List.Sublist (f a) (l.flatMap f) := by
  induction l with
  | nil => cases h
  | cons x xs ih =>
    rcases List.mem_cons.mp h with h | h
    · subst h
      exact List.sublist_append_left (f a) (xs.flatMap f)
    · exact (ih h).trans (List.sublist_append_right (f x) (xs.flatMap f))

/-- For every entry of the table, the destructor trace contains that entry's
five teardown events as an in-order subsequence: its abort signal, then its
thread join, then its `preShutdown`, then its `shutdown`, then its erasure. -/
theorem destructorRun_entry_ordered (s : RegistryState) (ni : String)
    (e : InternalHandle)
    (hd : s.handles_.all (fun kv => kv.2.spin_thread) = true)
    (hmem : (ni, e) ∈ s.handles_) :
    List.Sublist (shutdownEvents ni e.ecat_master.masterId true)
      (destructorRun s).2 := by
  have hAbort : List.Sublist [Event.setAbortSignal ni]
      (s.handles_.map (fun kv => Event.setAbortSignal kv.1)) :=
    List.singleton_sublist.mpr
      (List.mem_map_of_mem (fun kv => Event.setAbortSignal kv.1) hmem)
  have hJoin : List.Sublist [Event.joinSpinThread ni]
      (s.handles_.map (fun kv => Event.joinSpinThread kv.1)) :=
    List.singleton_sublist.mpr
      (List.mem_map_of_mem (fun kv => Event.joinSpinThread kv.1) hmem)
  have hPS : List.Sublist
      [Event.masterPreShutdown e.ecat_master.masterId true,
       Event.masterShutdown e.ecat_master.masterId]
      (s.handles_.flatMap (fun kv =>
        [Event.masterPreShutdown kv.2.ecat_master.masterId true,
         Event.masterShutdown kv.2.ecat_master.masterId])) :=
    sublist_flatMap_of_mem
      (fun (kv : String × InternalHandle) =>
        [Event.masterPreShutdown kv.2.ecat_master.masterId true,
         Event.masterShutdown kv.2.ecat_master.masterId])
      s.handles_ (ni, e) hmem
  have hErase : List.Sublist [Event.eraseEntry ni]
      (s.handles_.map (fun kv => Event.eraseEntry kv.1)) :=
    List.singleton_sublist.mpr
      (List.mem_map_of_mem (fun kv => Event.eraseEntry kv.1) hmem)
  have hsub := ((hAbort.append hJoin).append hPS).append hErase
  simpa [destructorRun, hd, shutdownEvents] using hsub

end EcatMaster

namespace EcatMaster

/-- After a fresh acquisition the interface maps to the newly created entry:
count 1, readiness 1 ↦ false, no spin thread. -/
theorem mapFind_after_fresh (config : EthercatMasterConfiguration)
    (rt_prio : Int) (s : RegistryState)
    (hnone : mapFind s.handles_ config.networkInterface = none) :
    mapFind (aquireMaster config rt_prio s).2.1.handles_ config.networkInterface =
      some ({ ecat_master := { masterId := s.nextMasterId, configuration_ := config },
              spin_thread := false, abort_signal := false, reference_count := 1,
              handles_ready := [(1, false)], rt_prio := rt_prio }) := by
  rw [aquireMaster_fresh config rt_prio s hnone]
  simp [mapFind_append_none _ _ _ hnone, mapFind]

/-- C1: for every sequence of `aquireMaster` calls whose configurations carry
the same `networkInterface` string, with no intervening teardown erasing that
interface's entry, every returned Handle holds the identical `EthercatMaster`
instance: the first call constructs it (allocating the next master identity)
and every later call reuses it. -/
theorem c1_aquire_same_interface_same_master
    (c0 : EthercatMasterConfiguration) (rest : List EthercatMasterConfiguration)
    (ni : String) (rt_prio : Int) (s : RegistryState)
    (h0 : c0.networkInterface = ni)
    (hall : ∀ c ∈ rest, c.networkInterface = ni)
    (hnone : mapFind s.handles_ ni = none) :
    (aquireAll (c0 :: rest) rt_prio s).1.map Handle.ecat_master =
      List.replicate (rest.length + 1)
        ({ masterId := s.nextMasterId, configuration_ := c0 } : EthercatMaster) := by
  have hnone' : mapFind s.handles_ c0.networkInterface = none := by
    rw [h0]; exact hnone
  have hstep := aquireMaster_fresh c0 rt_prio s hnone'
  have hfind1 := mapFind_after_fresh c0 rt_prio s hnone'
  rw [h0] at hfind1
  obtain ⟨hm, _, _⟩ := aquireAll_existing rest ni rt_prio hall
    (aquireMaster c0 rt_prio s).2.1 _ hfind1
  simp only [aquireAll, List.map_cons, hm, List.replicate_succ]
  rw [hstep]

/-- C1 witness: three acquisitions with the eth0 configuration on the empty
registry all return the master allocated by the first call. -/
theorem c1_aquire_same_interface_same_master_witness :
    cfg0.networkInterface = "eth0" ∧
    (∀ c ∈ [cfg0, cfg0], c.networkInterface = "eth0") ∧
    mapFind emptyReg.handles_ "eth0" = none ∧
    (aquireAll (cfg0 :: [cfg0, cfg0]) 48 emptyReg).1.map Handle.ecat_master =
      List.replicate 3 ({ masterId := 0, configuration_ := cfg0 } : EthercatMaster) :=
  ⟨rfl, by decide, rfl,
   c1_aquire_same_interface_same_master cfg0 [cfg0, cfg0] "eth0" 48 emptyReg
     rfl (by decide) rfl⟩

end EcatMaster

namespace EcatMaster

/-- C6 (amended): every `aquireMaster` call increments the interface entry's
reference count and returns a Handle whose id equals the incremented count —
the n-th acquisition from a fresh interface with no intervening releases
yields id n — and it EMPLACES `readiness[id] = false`: the flag is inserted
only when no flag is yet recorded for that id, while a pre-existing flag
(left over from a released handle) is kept unchanged. -/
theorem c6_aquire_count_id_emplace
    (config : EthercatMasterConfiguration) (rt_prio : Int)
    (s2 : RegistryState) (n : Nat) (s : RegistryState)
    (hnone : mapFind s.handles_ config.networkInterface = none) :
    ((aquireMaster config rt_prio s2).1.id =
      refCountAt s2 config.networkInterface + 1) ∧
    (refCountAt (aquireMaster config rt_prio s2).2.1 config.networkInterface =
      refCountAt s2 config.networkInterface + 1) ∧
    (readinessAt (aquireMaster config rt_prio s2).2.1 config.networkInterface =
      mapEmplace (readinessAt s2 config.networkInterface)
        (refCountAt s2 config.networkInterface + 1) false) ∧
    ((aquireAll (List.replicate n config) rt_prio s).1.map Handle.id =
      (List.range n).map (fun (i : Nat) => (i : Int) + 1)) := by
  have percall :
      ((aquireMaster config rt_prio s2).1.id =
        refCountAt s2 config.networkInterface + 1) ∧
      (refCountAt (aquireMaster config rt_prio s2).2.1 config.networkInterface =
        refCountAt s2 config.networkInterface + 1) ∧
      (readinessAt (aquireMaster config rt_prio s2).2.1 config.networkInterface =
        mapEmplace (readinessAt s2 config.networkInterface)
          (refCountAt s2 config.networkInterface + 1) false) := by
    cases hcase : mapFind s2.handles_ config.networkInterface with
    | none =>
      have hstep := aquireMaster_fresh config rt_prio s2 hcase
      have hfind := mapFind_after_fresh config rt_prio s2 hcase
      refine ⟨?_, ?_, ?_⟩
      · rw [hstep]
        simp [refCountAt, hcase]
      · simp [refCountAt, hfind, hcase]
      · simp [readinessAt, refCountAt, hfind, hcase, mapEmplace, mapFind]
    | some e =>
      have hstep := aquireMaster_existing config rt_prio s2 e hcase
      have hfind :
          mapFind (aquireMaster config rt_prio s2).2.1.handles_
            config.networkInterface = some (acquiredEntry e) := by
        rw [hstep]
        simp [mapFind_mapSet_eq, hcase]
      refine ⟨?_, ?_, ?_⟩
      · rw [hstep]
        simp [refCountAt, hcase]
      · simp [refCountAt, hfind, hcase, acquiredEntry]
      · simp [readinessAt, refCountAt, hfind, hcase, acquiredEntry]
  refine ⟨percall.1, percall.2.1, percall.2.2, ?_⟩
  cases n with
  | zero => simp [aquireAll]
  | succ m =>
    have hstep := aquireMaster_fresh config rt_prio s hnone
    have hfind := mapFind_after_fresh config rt_prio s hnone
    have hall : ∀ c ∈ List.replicate m config,
        c.networkInterface = config.networkInterface := by
      intro c hc
      rw [List.eq_of_mem_replicate hc]
    obtain ⟨_, hi, _⟩ := aquireAll_existing (List.replicate m config)
      config.networkInterface rt_prio hall (aquireMaster config rt_prio s).2.1 _ hfind
    simp only [List.replicate_succ, aquireAll, List.map_cons, hi,
               List.length_replicate]
    rw [hstep]
    simp only [List.range_succ_eq_map, List.map_cons, List.map_map]
    congr 1
    apply List.map_congr_left
    intro a _
    simp [Function.comp]
    try push_cast
    try omega

/-- C6 witness: on the registry holding one eth0 handle, a second acquisition
returns id 2 and advances the count to 2; two acquisitions from the empty
registry yield ids 1 and 2. -/
theorem c6_aquire_count_id_emplace_witness :
    mapFind emptyReg.handles_ cfg0.networkInterface = none ∧
    (((aquireMaster cfg0 48 acq1.2.1).1.id =
        refCountAt acq1.2.1 cfg0.networkInterface + 1) ∧
     (refCountAt (aquireMaster cfg0 48 acq1.2.1).2.1 cfg0.networkInterface =
        refCountAt acq1.2.1 cfg0.networkInterface + 1) ∧
     (readinessAt (aquireMaster cfg0 48 acq1.2.1).2.1 cfg0.networkInterface =
        mapEmplace (readinessAt acq1.2.1 cfg0.networkInterface)
          (refCountAt acq1.2.1 cfg0.networkInterface + 1) false) ∧
     ((aquireAll (List.replicate 2 cfg0) 48 emptyReg).1.map Handle.id =
        (List.range 2).map (fun (i : Nat) => (i : Int) + 1))) :=
  ⟨rfl, c6_aquire_count_id_emplace cfg0 48 acq1.2.1 2 emptyReg rfl⟩

/-- C6 counterexample: acquire twice, mark handle 2 ready, release handle 1
(count 2 → 1, entry retained), acquire again.  The call returns a Handle with
id 2, yet the readiness flag recorded for id 2 remains true: the claimed
`readiness[id] = false` is NOT recorded for the returned id. -/
theorem c6_counterexample_stale_true_flag :
    reacquire.1.id = 2 ∧
    readinessFlagAt reacquire.2.1 "eth0" 2 = some true ∧
    readinessFlagAt reacquire.2.1 "eth0" 2 ≠ some false := by
  decide

end EcatMaster

namespace EcatMaster

/-- C2 (amended): on a managed handle whose readiness flag is recorded and
still false, `markAsReady` sets the flag; when the master has not yet been
activated (no polling thread spawned) it returns true iff every recorded
flag is then true and `startup()` succeeds, in exactly that case calling
`master.startup()` once (raising StartupFailure when that returns false) and
spawning the polling thread, and otherwise returning false without calling
startup and without spawning a thread.  Activation is NOT once per Master:
a Handle acquired after an activation re-arms the barrier, and a later call
that again completes the recorded set calls `startup()` a second time,
constructs a second polling thread, and then aborts the process — the
reassignment of `spin_thread` destroys the still-joinable previous thread,
invoking `std::terminate()` — so that call never returns true. -/
theorem c2_markAsReady_barrier (s : RegistryState) (h : Handle) (b : Bool)
    (e : InternalHandle)
    (he : mapFind s.handles_ h.ecat_master.getConfiguration.networkInterface =
      some e)
    (hid : mapFind e.handles_ready h.id = some false) :
    ((markAsReady h b s).1 =
      (if (mapSet e.handles_ready h.id true).all (fun kv => kv.2) then
        (if b then
          (if e.spin_thread then
            Except.error (RegError.terminateJoinableThread
              h.ecat_master.getConfiguration.networkInterface)
           else Except.ok true)
         else Except.error (RegError.startupFailure
           h.ecat_master.getConfiguration.networkInterface))
       else Except.ok false)) ∧
    ((markAsReady h b s).2.2 =
      (if (mapSet e.handles_ready h.id true).all (fun kv => kv.2) then
        Event.masterStartup e.ecat_master.masterId b ::
          (if b then
            [Event.spawnSpinThread h.ecat_master.getConfiguration.networkInterface]
           else [])
       else [])) ∧
    (readinessAt (markAsReady h b s).2.1
        h.ecat_master.getConfiguration.networkInterface =
      mapSet e.handles_ready h.id true) ∧
    (spinThreadAt (markAsReady h b s).2.1
        h.ecat_master.getConfiguration.networkInterface =
      (if (mapSet e.handles_ready h.id true).all (fun kv => kv.2) && b then true
       else e.spin_thread)) := by
  by_cases hall : (mapSet e.handles_ready h.id true).all (fun kv => kv.2) = true
  · cases b with
    | true =>
      cases hsp : e.spin_thread with
      | true =>
        refine ⟨?_, ?_, ?_, ?_⟩ <;>
          simp [markAsReady, he, hid, hall, hsp, readinessAt, spinThreadAt,
                mapFind_mapSet_eq]
      | false =>
        refine ⟨?_, ?_, ?_, ?_⟩ <;>
          simp [markAsReady, he, hid, hall, hsp, readinessAt, spinThreadAt,
                mapFind_mapSet_eq]
    | false =>
      refine ⟨?_, ?_, ?_, ?_⟩ <;>
        simp [markAsReady, he, hid, hall, readinessAt, spinThreadAt,
              mapFind_mapSet_eq]
  · have hall' : (mapSet e.handles_ready h.id true).all (fun kv => kv.2) = false := by
      revert hall
      cases (mapSet e.handles_ready h.id true).all (fun kv => kv.2) <;> simp
    refine ⟨?_, ?_, ?_, ?_⟩ <;>
      simp [markAsReady, he, hid, hall', readinessAt, spinThreadAt,
            mapFind_mapSet_eq]

/-- C2 witness: with two unmarked consumers, the first `markAsReady` returns
false with no startup; with one of two already marked, the completing call
returns true, starts the master once, and spawns the thread. -/
theorem c2_markAsReady_barrier_witness :
    ((markAsReady acq1.1 true acq2.2.1).1 = Except.ok false ∧
     (markAsReady acq1.1 true acq2.2.1).2.2 = []) ∧
    ((markAsReady acq2.1 true mark1.2.1).1 = Except.ok true ∧
     (markAsReady acq2.1 true mark1.2.1).2.2 =
       [Event.masterStartup 0 true, Event.spawnSpinThread "eth0"]) := by
  have h1 := c2_markAsReady_barrier acq2.2.1 acq1.1 true
    { ecat_master := { masterId := 0, configuration_ := cfg0 },
      spin_thread := false, abort_signal := false, reference_count := 2,
      handles_ready := [(1, false), (2, false)], rt_prio := 48 }
    (by decide) (by decide)
  have h2 := c2_markAsReady_barrier mark1.2.1 acq2.1 true
    { ecat_master := { masterId := 0, configuration_ := cfg0 },
      spin_thread := false, abort_signal := false, reference_count := 2,
      handles_ready := [(1, true), (2, false)], rt_prio := 48 }
    (by decide) (by decide)
  exact ⟨⟨h1.1.trans (by decide), h1.2.1.trans (by decide)⟩,
         ⟨h2.1.trans (by decide), h2.2.1.trans (by decide)⟩⟩

/-- C2 counterexample: a single consumer acquires and marks ready, which
activates the master; a second consumer acquires afterwards and marks ready.
The barrier fires AGAIN — `startup()` runs a second time on the same master
(id 0) and a second thread is constructed — and then the reassignment of
`spin_thread` destroys the still-joinable first thread, aborting the process
(`std::terminate`), so the call does not return true even though every
recorded readiness flag is true.  This refutes both "returns true if and
only if every readiness flag recorded for that master is true" and
"activation occurs exactly once per Master". -/
theorem c2_counterexample_double_activation :
    soloMark.1 = Except.ok true ∧
    soloMark.2.2 = [Event.masterStartup 0 true, Event.spawnSpinThread "eth0"] ∧
    lateMark.1 = Except.error (RegError.terminateJoinableThread "eth0") ∧
    lateMark.1 ≠ Except.ok true ∧
    lateMark.2.2 = [Event.masterStartup 0 true, Event.spawnSpinThread "eth0"] := by
  decide

/-- C8: `markAsReady` raises a hard NotManaged error when the handle's
master's network interface is not tracked, and a hard AlreadyReady error when
that handle's readiness flag is already true; in both failure cases the state
is returned unchanged (no readiness flag changes) and no event — in
particular no activation — occurs. -/
theorem c8_markAsReady_errors (s : RegistryState) (h : Handle) (b : Bool)
    (hcase :
      mapFind s.handles_ h.ecat_master.getConfiguration.networkInterface = none ∨
      readinessFlagAt s h.ecat_master.getConfiguration.networkInterface h.id =
        some true) :
    markAsReady h b s =
      (Except.error
        (if hasMaster s h.ecat_master.getConfiguration.networkInterface then
          RegError.alreadyReady h.id h.ecat_master.getConfiguration.networkInterface
         else RegError.notManaged h.ecat_master.getConfiguration.networkInterface),
       s, []) := by
  rcases hcase with hnone | htrue
  · simp [markAsReady, hasMaster, hnone]
  · cases hfind : mapFind s.handles_ h.ecat_master.getConfiguration.networkInterface with
    | none =>
      simp [readinessFlagAt, hfind] at htrue
    | some e =>
      simp only [readinessFlagAt, hfind] at htrue
      simp [markAsReady, hasMaster, hfind, htrue]

/-- C8 witness: on the empty registry marking fails NotManaged with the state
unchanged; marking an already-marked handle fails AlreadyReady with the state
unchanged. -/
theorem c8_markAsReady_errors_witness :
    (markAsReady acq1.1 true emptyReg =
      (Except.error (RegError.notManaged "eth0"), emptyReg, [])) ∧
    (markAsReady acq1.1 true mark1.2.1 =
      (Except.error (RegError.alreadyReady 1 "eth0"), mark1.2.1, [])) := by
  constructor
  · exact (c8_markAsReady_errors emptyReg acq1.1 true (Or.inl (by decide))).trans
      (by decide)
  · exact (c8_markAsReady_errors mark1.2.1 acq1.1 true (Or.inr (by decide))).trans
      (by decide)

end EcatMaster

namespace EcatMaster

/-- C7 (amended): when one of several consumers releases its Handle without
ever calling `markAsReady` and the count stays above zero, the release leaves
the readiness map unchanged, so the released handle's flag stays recorded as
false and the remaining consumers' `markAsReady` calls alone can NOT complete
the activation barrier: a `markAsReady` on any other handle id never returns
true and emits no startup event. -/
theorem c7_release_does_not_unblock_barrier (s : RegistryState)
    (h hr : Handle) (b : Bool) (e : InternalHandle) (j : Int)
    (he : mapFind s.handles_ h.ecat_master.getConfiguration.networkInterface =
      some e)
    (hj : mapFind e.handles_ready j = some false)
    (hne : j ≠ h.id)
    (hrm : hr.ecat_master.getConfiguration.networkInterface =
      h.ecat_master.getConfiguration.networkInterface)
    (hc : 0 < e.reference_count - 1) :
    ((markAsReady h b s).1 ≠ Except.ok true) ∧
    ((markAsReady h b s).2.2 = []) ∧
    (releaseMaster hr s =
      (Except.ok false,
       { s with handles_ := (mapSet s.handles_
           h.ecat_master.getConfiguration.networkInterface (releasedEntry e)) },
       [])) := by
  have hmark : ((markAsReady h b s).1 ≠ Except.ok true) ∧
      (markAsReady h b s).2.2 = [] := by
    cases hid : mapFind e.handles_ready h.id with
    | none => simp [markAsReady, he, hid]
    | some v =>
      cases v with
      | true => simp [markAsReady, he, hid]
      | false =>
        have hj' : mapFind (mapSet e.handles_ready h.id true) j = some false := by
          rw [mapFind_mapSet_ne _ _ _ _ hne]
          exact hj
        have hallf := all_false_of_mapFind_false
          (mapSet e.handles_ready h.id true) (fun kv => kv.2) j false hj' rfl
        simp [markAsReady, he, hid, hallf]
  have hcc : ¬ (e.reference_count ≤ 1) := by omega
  refine ⟨hmark.1, hmark.2, ?_⟩
  simp [releaseMaster, hrm, he, hcc, releasedEntry]

/-- C7 witness: on the two-consumer unmarked registry (count 2, flags 1 and 2
both false), releasing handle 2 returns false and keeps the readiness map,
and marking handle 1 with the stale flag 2 present cannot activate. -/
theorem c7_release_does_not_unblock_barrier_witness :
    ((markAsReady acq1.1 true acq2.2.1).1 ≠ Except.ok true) ∧
    ((markAsReady acq1.1 true acq2.2.1).2.2 = []) ∧
    (releaseMaster acq2.1 acq2.2.1).1 = Except.ok false ∧
    refCountAt (releaseMaster acq2.1 acq2.2.1).2.1 "eth0" = 1 ∧
    readinessAt (releaseMaster acq2.1 acq2.2.1).2.1 "eth0" =
      [(1, false), (2, false)] := by
  have hth := c7_release_does_not_unblock_barrier acq2.2.1 acq1.1 acq2.1 true
    { ecat_master := { masterId := 0, configuration_ := cfg0 },
      spin_thread := false, abort_signal := false, reference_count := 2,
      handles_ready := [(1, false), (2, false)], rt_prio := 48 } 2
    (by decide) (by decide) (by decide) (by decide) (by decide)
  refine ⟨hth.1, hth.2.1, ?_, ?_, ?_⟩
  · rw [hth.2.2]
  · rw [hth.2.2]
    decide
  · rw [hth.2.2]
    decide

/-- C7 counterexample: two consumers acquire; the second releases without
marking (count 2 → 1); the last remaining consumer's `markAsReady` returns
FALSE — not true as claimed — no startup occurs and no thread is spawned:
the released handle's stale readiness flag blocks the barrier. -/
theorem c7_counterexample_barrier_blocked :
    releaseSecondUnmarked.1 = Except.ok false ∧
    markFirstAfterRelease.1 = Except.ok false ∧
    markFirstAfterRelease.2.2 = [] ∧
    spinThreadAt markFirstAfterRelease.2.1 "eth0" = false := by
  decide

/-- C10: `releaseMaster`'s behaviour depends only on the handle's master
(hence only on its network interface) and never on `handle.id`: any two
Handles holding the same master release identically; consequently releasing
the same Handle twice while a second consumer still holds an un-released
Handle decrements the count twice and tears the master down under that
second consumer. -/
theorem c10_release_ignores_handle_id (s : RegistryState) (h1 h2 : Handle)
    (hm : h1.ecat_master = h2.ecat_master) :
    (releaseMaster h1 s = releaseMaster h2 s) ∧
    (releaseOnceActivated.1 = Except.ok false ∧
     refCountAt releaseOnceActivated.2.1 "eth0" = 1 ∧
     releaseTwiceActivated.1 = Except.ok true ∧
     hasMaster releaseTwiceActivated.2.1 "eth0" = false) := by
  constructor
  · unfold releaseMaster
    rw [hm]
  · decide

/-- C10 witness: the two eth0 handles (ids 1 and 2, same master) release
identically on the activated registry, and the double release of handle 1
tears the master down while handle 2 is still held. -/
theorem c10_release_ignores_handle_id_witness :
    (releaseMaster acq1.1 activated2 = releaseMaster acq2.1 activated2) ∧
    (releaseOnceActivated.1 = Except.ok false ∧
     refCountAt releaseOnceActivated.2.1 "eth0" = 1 ∧
     releaseTwiceActivated.1 = Except.ok true ∧
     hasMaster releaseTwiceActivated.2.1 "eth0" = false) :=
  c10_release_ignores_handle_id activated2 acq1.1 acq2.1 (by decide)

end EcatMaster

namespace EcatMaster

/-- C4: in every teardown path the steps occur in order.  A successful
`shutdownMaster` (the path shared by release-to-zero and forceShutdown)
produces exactly the trace abort → join → preShutdown → shutdown → erase;
in the destructor's trace every entry's five teardown events appear as an
in-order subsequence (its abort before its join before its `preShutdown`
before its `shutdown` before its erasure); and the polling loop performs no
`update()` call at any position after one at which it observed the abort
flag true. -/
theorem c4_teardown_ordering (master : EthercatMaster) (safe : Bool)
    (s sd : RegistryState) (e ed : InternalHandle) (nid : String)
    (obs : List Bool) (i j : Nat)
    (he : mapFind s.handles_ master.getConfiguration.networkInterface = some e)
    (ht : e.spin_thread = true)
    (hd : sd.handles_.all (fun kv => kv.2.spin_thread) = true)
    (hmem : (nid, ed) ∈ sd.handles_)
    (hobs : (spinLoopTrace obs).get? i = some (SpinEvent.readAbort true))
    (hij : i < j) :
    (shutdownMaster master safe s =
      (Except.ok (),
       stateAfterShutdown s master.getConfiguration.networkInterface e,
       shutdownEvents master.getConfiguration.networkInterface
         e.ecat_master.masterId safe)) ∧
    (List.Sublist (shutdownEvents nid ed.ecat_master.masterId true)
      (destructorRun sd).2) ∧
    ((spinLoopTrace obs).get? j ≠ some SpinEvent.update) := by
  refine ⟨?_, destructorRun_entry_ordered sd nid ed hd hmem,
    spinLoopTrace_no_update_after obs i j hobs hij⟩
  simp [shutdownMaster, he, ht, stateAfterShutdown, abortedEntry, shutdownEvents]

/-- C4 witness: tearing down the activated eth0 registry emits the five
teardown events in order; in the two-bus registry's destructor trace (whose
third loop interleaves preShutdown and shutdown per entry) the eth1 entry's
five events appear in order; the loop trace for observations false-then-true
has no update after the true read. -/
theorem c4_teardown_ordering_witness :
    (shutdownMaster acq1.1.ecat_master true activated2 =
      (Except.ok (),
       stateAfterShutdown activated2 "eth0"
         { ecat_master := { masterId := 0, configuration_ := cfg0 },
           spin_thread := true, abort_signal := false, reference_count := 2,
           handles_ready := [(1, true), (2, true)], rt_prio := 48 },
       shutdownEvents "eth0" 0 true)) ∧
    (List.Sublist (shutdownEvents "eth1" 1 true) (destructorRun twoBuses).2) ∧
    ((spinLoopTrace [false, true]).get? 3 ≠ some SpinEvent.update) :=
  c4_teardown_ordering acq1.1.ecat_master true activated2 twoBuses
    { ecat_master := { masterId := 0, configuration_ := cfg0 },
      spin_thread := true, abort_signal := false, reference_count := 2,
      handles_ready := [(1, true), (2, true)], rt_prio := 48 }
    { ecat_master := { masterId := 1, configuration_ := cfg1 },
      spin_thread := true, abort_signal := false, reference_count := 1,
      handles_ready := [(1, true)], rt_prio := 48 }
    "eth1" [false, true] 2 3 (by decide) (by decide) (by decide) (by decide)
    (by decide) (by decide)

/-- C3 evaluation: release on the never-activated sole consumer drops the
count to 0, but instead of performing teardown and returning true the code
joins through the null spin-thread pointer (undefined behaviour; the entry is
even left in the table with count 0).  On the activated registry the claimed
behaviour is observed: the first release returns false leaving count 1, the
release reaching zero tears down exactly once and returns true, and a
further release after teardown fails NotManaged. -/
theorem c3_release_null_thread_crash :
    (releaseUnmarked.1 = Except.error (RegError.nullThreadJoin "eth0")) ∧
    (hasMaster releaseUnmarked.2.1 "eth0" = true) ∧
    (refCountAt releaseUnmarked.2.1 "eth0" = 0) ∧
    (releaseOnceActivated.1 = Except.ok false ∧
     refCountAt releaseOnceActivated.2.1 "eth0" = 1) ∧
    ((releaseMaster acq2.1 releaseOnceActivated.2.1).1 = Except.ok true ∧
     hasMaster (releaseMaster acq2.1 releaseOnceActivated.2.1).2.1 "eth0" =
       false) ∧
    ((releaseMaster acq2.1
        (releaseMaster acq2.1 releaseOnceActivated.2.1).2.1).1 =
      Except.error (RegError.notManaged "eth0")) := by
  decide

/-- C5 evaluation: acquire immediately followed by release with no
markAsReady never starts a polling thread and never calls startup (the
acquisition's trace is only the configuration load and no thread is
spawned), but the teardown triggered by that release does NOT complete
safely: after setting the abort signal the code joins through the null
spin-thread pointer (undefined behaviour), so `preShutdown` and `shutdown`
are never reached. -/
theorem c5_acquire_release_null_join :
    acq1.2.2 = [Event.loadConfiguration 0] ∧
    spinThreadAt acq1.2.1 "eth0" = false ∧
    releaseUnmarked.1 = Except.error (RegError.nullThreadJoin "eth0") ∧
    releaseUnmarked.2.2 = [Event.setAbortSignal "eth0"] := by
  decide

/-- C9 evaluation: `forceShutdownMaster` neither decrements nor consults the
reference count — forcing teardown of the activated registry yields the
identical result whether the recorded count is 2 or 5 — and a subsequent
acquisition constructs a brand-new master (identity 1, not the torn-down
identity 0).  However, on a tracked but never-activated interface
forceShutdown crashes joining the null spin thread instead of tearing the
master down. -/
theorem c9_forceShutdown_ignores_refcount :
    (forcedShutdown =
      forceShutdownMaster acq1.1.ecat_master (withRefCount activated2 "eth0" 5)) ∧
    forcedShutdown.1 = Except.ok () ∧
    hasMaster forcedShutdown.2.1 "eth0" = false ∧
    (aquireMaster cfg0 48 forcedShutdown.2.1).1.ecat_master.masterId = 1 ∧
    (aquireMaster cfg0 48 forcedShutdown.2.1).1.ecat_master ≠
      acq1.1.ecat_master ∧
    (forceShutdownMaster acq1.1.ecat_master acq1.2.1).1 =
      Except.error (RegError.nullThreadJoin "eth0") := by
  decide

end EcatMaster
